import Mathlib

/-!
Verification of the GEO download script (`src/download_data.py`).

The script downloads a fixed manifest of twelve CITE-seq / ADT files into
`data/raw/cite_seq/`, skipping files that already exist, catching every
per-file exception inside `download_file`, and printing a summary at the end.

Shallow embedding: the filesystem is a map from path strings to optional byte
lists, the network is an oracle mapping each URL to the behaviour of the one
HTTP request the script would issue for it, and the observable side effects
(network requests, error prints, skip messages, the summary block) are
recorded as an event trace.  Paths are strings relative to the project root:
the script resolves `project_root = Path(__file__).parent.parent` and places
everything under `data/raw/cite_seq/` below it; we take that root as the
empty prefix.  Bytes are modelled as natural numbers.
-/

/-- A filesystem state: each path is either absent (`none`) or holds its
current contents as a list of bytes. -/
abbrev FS := String → Option (List Nat)

/-- Behaviour of the network (and disk) for a single URL, covering the four
ways the body of `download_file` can go. -/
inductive FetchResponse where
  /-- The call `requests.get` itself raises (connection error, timeout), or
  the destination cannot even be opened: an exception before any byte
  reaches disk. -/
  | connError : FetchResponse
  /-- The response carries a non-success HTTP status with this code:
  `response.raise_for_status()` raises before the destination file is opened. -/
  | httpError : Nat → FetchResponse
  /-- The transfer succeeds; the body arrives as this list of chunks, all of
  which are written. -/
  | ok : List (List Nat) → FetchResponse
  /-- An exception (network drop mid-stream, disk-write error) interrupts the
  streaming loop after exactly this prefix of chunks has been written. -/
  | okPartial : List (List Nat) → FetchResponse
deriving DecidableEq

/-- Observable effects of a run: a network request for a URL, the error
message printed by the `except` handler in `download_file`, the
"Already exists" message printed for a destination path, and the final
summary block printed by `main`. -/
inductive Event where
  | netCall : String → Event
  | errorPrinted : Event
  | skipped : String → Event
  | summaryPrinted : Event
deriving DecidableEq

/-- Embedding of `download_file(url, output_path)` (lines 18-51 of
`download_data.py`).  It issues the single request for `url`, and on success
opens `output_path` with mode `wb` (truncating) and writes every streamed
chunk; `raise_for_status` fires before the file is opened, and the
catch-all `except` clause prints the error and returns `False`.  The result
is the returned boolean, the filesystem after the call, and the events the
call emitted. -/
def download_file (net : String → FetchResponse) (fs : FS) (url : String)
    (output_path : String) : Bool × FS × List Event :=
  match net url with
  | FetchResponse.connError =>
      (false, fs, [Event.netCall url, Event.errorPrinted])
  | FetchResponse.httpError _ =>
      (false, fs, [Event.netCall url, Event.errorPrinted])
  | FetchResponse.ok chunks =>
      (true, fun p => if p = output_path then some chunks.flatten else fs p,
       [Event.netCall url])
  | FetchResponse.okPartial sent =>
      (false, fun p => if p = output_path then some sent.flatten else fs p,
       [Event.netCall url, Event.errorPrinted])

/-- Base URL for the GSE264696 series supplementary files (line 68). -/
def geo_base : String := "https://ftp.ncbi.nlm.nih.gov/geo/series/GSE264nnn/GSE264696/suppl/"

/-- The six series-level CITE-seq supplementary filenames (lines 71-78). -/
def cite_files : List String :=
  ["GSE264696_730_HTO_GEXbarcodes.tsv.gz",
   "GSE264696_730_HTO_GEXfeatures.tsv.gz",
   "GSE264696_730_HTO_GEXmatrix.mtx.gz",
   "GSE264696_3228_HTO_GEXbarcodes.tsv.gz",
   "GSE264696_3228_HTO_GEXfeatures.tsv.gz",
   "GSE264696_3228_HTO_GEXmatrix.mtx.gz"]

/-- The two GSM sample accessions with their sample names, in the insertion
order of the Python dict (lines 95-98). -/
def gsm_samples : List (String × String) :=
  [("GSM8226272", "730_ADT"), ("GSM8226274", "3228_ADT")]

/-- The three per-sample file suffixes (line 101). -/
def adt_suffixes : List String :=
  ["barcodes.tsv.gz", "features.tsv.gz", "matrix.mtx.gz"]

/-- Destination directory for every file, relative to the project root
(lines 57-65: `project_root / data / raw / cite_seq`). -/
def cite_dir : String := "data/raw/cite_seq/"

/-- Manifest entries for the series files: URL is `geo_base + filename`,
destination is the filename inside `cite_dir` (lines 80-88). -/
def buildCiteEntries (files : List String) : List (String × String) :=
  files.map (fun filename => (geo_base ++ filename, cite_dir ++ filename))

/-- The per-sample URL of line 109.  Python's `gsm_id[:7]` slices the first
seven characters; the accessions are ASCII, so taking seven characters of
the character list is faithful. -/
def gsm_url (gsm_id : String) (filename : String) : String :=
  "https://ftp.ncbi.nlm.nih.gov/geo/samples/" ++ String.mk (gsm_id.data.take 7) ++
    "nnn/" ++ gsm_id ++ "/suppl/" ++ filename

/-- Manifest entries for the ADT files: for each sample and each suffix the
filename is `gsm_id + "_" + sample_name + suffix` (line 102: the f-string has
no separator between the sample name and the suffix), fetched from the
per-sample URL into `cite_dir` (lines 100-111). -/
def buildAdtEntries (samples : List (String × String)) : List (String × String) :=
  samples.flatMap (fun gs =>
    adt_suffixes.map (fun suffix =>
      (gsm_url gs.1 (gs.1 ++ "_" ++ gs.2 ++ suffix),
       cite_dir ++ (gs.1 ++ "_" ++ gs.2 ++ suffix))))

/-- The manifest builder: the ordered list of (URL, destination) pairs the
run processes, series files first, then the ADT files. -/
def buildManifest (files : List String) (samples : List (String × String)) :
    List (String × String) :=
  buildCiteEntries files ++ buildAdtEntries samples

/-- The manifest of the actual run, built from the script's constants. -/
def manifest : List (String × String) := buildManifest cite_files gsm_samples

/-- Processing of one manifest entry by the loops of `main` (lines 80-88 and
100-111): if the destination exists, print the skip message and continue;
otherwise call `download_file`.  Returns the filesystem afterwards and the
events of this entry. -/
def processEntry (net : String → FetchResponse) (fs : FS)
    (entry : String × String) : FS × List Event :=
  if (fs entry.2).isSome then (fs, [Event.skipped entry.2])
  else ((download_file net fs entry.1 entry.2).2.1,
        (download_file net fs entry.1 entry.2).2.2)

/-- Sequential processing of a list of manifest entries, threading the
filesystem and collecting one event list per entry. -/
def runEntries (net : String → FetchResponse) (fs : FS) :
    List (String × String) → FS × List (List Event)
  | [] => (fs, [])
  | e :: rest =>
      ((runEntries net (processEntry net fs e).1 rest).1,
       (processEntry net fs e).2 ::
         (runEntries net (processEntry net fs e).1 rest).2)

/-- Result of one whole run of `main`: the process exit status, the final
filesystem, the per-entry event lists in manifest order, and the events after
the loops (the summary). -/
structure RunResult where
  exitCode : Nat
  finalFS : FS
  stepEvents : List (List Event)
  tailEvents : List Event

/-- Embedding of `main()` (lines 54-125): process every manifest entry in
order, then print the summary.  The Python function body contains no
`sys.exit` and every per-file exception is caught inside `download_file`,
so the process exit status is 0.  (Named `main_run` because Lean reserves
the identifier `main`.) -/
def main_run (net : String → FetchResponse) (fs0 : FS) : RunResult :=
  { exitCode := 0
    finalFS := (runEntries net fs0 manifest).1
    stepEvents := (runEntries net fs0 manifest).2
    tailEvents := [Event.summaryPrinted] }

/-- The filesystem as it stands when the run reaches entry number `k`
(after processing the first `k` manifest entries). -/
def fsAfter (net : String → FetchResponse) (fs0 : FS) (k : Nat) : FS :=
  (runEntries net fs0 (manifest.take k)).1

/-- Helper for the final path component: walk the characters, restarting the
accumulator after each slash. -/
def lastCompChars : List Char → List Char → List Char
  | [], acc => acc
  | c :: cs, acc =>
      if c = '/' then lastCompChars cs [] else lastCompChars cs (acc ++ [c])

/-- Final path component of a URL: the characters after the last slash.
This is the spec's notion of the "remote filename" a destination is named
after. -/
def lastUrlComponent (s : String) : String := String.mk (lastCompChars s.data [])

/-- A network oracle on which every request succeeds with two chunks. -/
def netAllOk : String → FetchResponse := fun _ => FetchResponse.ok [[1, 2], [3]]

/-- A network oracle on which every request gets HTTP status 500. -/
def netHttp500 : String → FetchResponse := fun _ => FetchResponse.httpError 500

/-- The empty filesystem. -/
def fsEmpty : FS := fun _ => none

/-- A filesystem on which exactly the first manifest entry's destination
exists, holding the single byte 0. -/
def fsWithFirst : FS := fun p =>
  if p = "data/raw/cite_seq/GSE264696_730_HTO_GEXbarcodes.tsv.gz" then some [0]
  else none

/-- A download touches no path other than its own destination. -/
theorem download_file_frame (net : String → FetchResponse) (fs : FS)
    (url output_path p : String) (hp : p ≠ output_path) :
    (download_file net fs url output_path).2.1 p = fs p := by
  cases h : net url <;> simp [download_file, h, hp]

/-- When the destination already exists, entry processing only prints the
skip message and leaves the filesystem untouched. -/
theorem processEntry_of_isSome (net : String → FetchResponse) (fs : FS)
    (e : String × String) (hex : (fs e.2).isSome = true) :
    processEntry net fs e = (fs, [Event.skipped e.2]) := by
  simp [processEntry, hex]

/-- Entry processing touches no path other than the entry's destination. -/
theorem processEntry_frame (net : String → FetchResponse) (fs : FS)
    (e : String × String) (p : String) (hp : p ≠ e.2) :
    (processEntry net fs e).1 p = fs p := by
  unfold processEntry
  split
  · rfl
  · exact download_file_frame net fs e.1 e.2 p hp

/-- Every processed entry leaves a trace: either exactly the skip message,
or a trace containing the network request for the entry's URL. -/
theorem processEntry_events (net : String → FetchResponse) (fs : FS)
    (e : String × String) :
    (processEntry net fs e).2 = [Event.skipped e.2] ∨
      Event.netCall e.1 ∈ (processEntry net fs e).2 := by
  unfold processEntry
  split
  · exact Or.inl rfl
  · right
    cases h : net e.1 <;> simp [download_file, h]

/-- One event list is produced per processed entry. -/
theorem runEntries_length (net : String → FetchResponse) :
    ∀ (l : List (String × String)) (fs : FS),
      (runEntries net fs l).2.length = l.length := by
  intro l
  induction l with
  | nil => intro fs; rfl
  | cons e rest ih => intro fs; simp [runEntries, ih]

/-- Processing a concatenation threads the filesystem through the first
part. -/
theorem runEntries_append (net : String → FetchResponse) :
    ∀ (l1 l2 : List (String × String)) (fs : FS),
      (runEntries net fs (l1 ++ l2)).1 =
        (runEntries net (runEntries net fs l1).1 l2).1 := by
  intro l1
  induction l1 with
  | nil => intro l2 fs; rfl
  | cons e rest ih => intro l2 fs; simp [runEntries, ih]

/-- The events of entry number `i` are those of processing that entry on
the filesystem reached after the first `i` entries. -/
theorem runEntries_getD (net : String → FetchResponse) :
    ∀ (l : List (String × String)) (fs : FS) (i : Nat), i < l.length →
      (runEntries net fs l).2.getD i [] =
        (processEntry net (runEntries net fs (l.take i)).1
          (l.getD i default)).2 := by
  intro l
  induction l with
  | nil => intro fs i h; exact absurd h (Nat.not_lt_zero i)
  | cons e rest ih =>
    intro fs i h
    cases i with
    | zero => simp [runEntries]
    | succ n =>
      have hn : n < rest.length := Nat.lt_of_succ_lt_succ h
      simp only [runEntries, List.getD_cons_succ, List.take_succ_cons]
      rw [ih (processEntry net fs e).1 n hn]

/-- If no entry of a list targets path `p`, processing the list leaves `p`
untouched. -/
theorem runEntries_frame (net : String → FetchResponse) :
    ∀ (l : List (String × String)) (fs : FS) (p : String),
      (∀ e ∈ l, p ≠ e.2) → (runEntries net fs l).1 p = fs p := by
  intro l
  induction l with
  | nil => intro fs p _; rfl
  | cons e rest ih =>
    intro fs p h
    have h1 : p ≠ e.2 := h e (List.mem_cons_self e rest)
    have h2 : ∀ x ∈ rest, p ≠ x.2 := fun x hx => h x (List.mem_cons_of_mem e hx)
    calc (runEntries net fs (e :: rest)).1 p
        = (runEntries net (processEntry net fs e).1 rest).1 p := rfl
      _ = (processEntry net fs e).1 p := ih (processEntry net fs e).1 p h2
      _ = fs p := processEntry_frame net fs e p h1

/-- C1: for every manifest entry (the six series files and the six ADT
files), if the destination file already exists at the time the run reaches
that entry, that entry's processing consists of exactly the skip message:
in particular no network call is made for it, and the run moves on to the
next entry. -/
theorem entry_exists_skips_network (net : String → FetchResponse) (fs0 : FS)
    (i : Nat) (h : i < manifest.length)
    (hex : ((fsAfter net fs0 i) ((manifest.getD i default).2)).isSome = true) :
    (main_run net fs0).stepEvents.getD i [] =
      [Event.skipped ((manifest.getD i default).2)] := by
  unfold fsAfter at hex
  show (runEntries net fs0 manifest).2.getD i [] = _
  rw [runEntries_getD net manifest fs0 i h]
  rw [processEntry_of_isSome net _ _ hex]

/-- Witness for C1: entry number 0 on a filesystem where its destination
already exists. -/
theorem entry_exists_skips_network_witness :
    0 < manifest.length ∧
    ((fsAfter netAllOk fsWithFirst 0) ((manifest.getD 0 default).2)).isSome = true ∧
    (main_run netAllOk fsWithFirst).stepEvents.getD 0 [] =
      [Event.skipped ((manifest.getD 0 default).2)] :=
  ⟨by decide, by decide,
   entry_exists_skips_network netAllOk fsWithFirst 0 (by decide) (by decide)⟩

/-- C2: `download_file` always returns a boolean: `True` exactly when the
transfer completes without exception (the oracle answered `ok`), and every
exceptional outcome is caught inside the function, prints the error message,
and yields the return value `False` instead of propagating. -/
theorem download_file_total_boolean (net : String → FetchResponse) (fs : FS)
    (url output_path : String) :
    ((download_file net fs url output_path).1 = true ∧
       ∃ chunks, net url = FetchResponse.ok chunks) ∨
    ((download_file net fs url output_path).1 = false ∧
       Event.errorPrinted ∈ (download_file net fs url output_path).2.2) := by
  cases h : net url with
  | connError =>
      exact Or.inr ⟨by simp [download_file, h], by simp [download_file, h]⟩
  | httpError code =>
      exact Or.inr ⟨by simp [download_file, h], by simp [download_file, h]⟩
  | ok chunks =>
      exact Or.inl ⟨by simp [download_file, h], chunks, rfl⟩
  | okPartial sent =>
      exact Or.inr ⟨by simp [download_file, h], by simp [download_file, h]⟩

/-- C3: no individual fetch outcome ever halts the run: whatever the network
oracle does, the run exits with status 0, produces one event list per
manifest entry (all twelve entries are processed), prints the final summary,
and each entry's processing is either the skip message or includes the
network request for that entry's URL. -/
theorem run_completes_and_exits_zero (net : String → FetchResponse) (fs0 : FS) :
    (main_run net fs0).exitCode = 0 ∧
    (main_run net fs0).stepEvents.length = manifest.length ∧
    (main_run net fs0).tailEvents = [Event.summaryPrinted] ∧
    ∀ i, i < manifest.length →
      (main_run net fs0).stepEvents.getD i [] =
          [Event.skipped ((manifest.getD i default).2)] ∨
        Event.netCall ((manifest.getD i default).1) ∈
          (main_run net fs0).stepEvents.getD i [] := by
  refine ⟨rfl, runEntries_length net manifest fs0, rfl, ?_⟩
  intro i h
  show (runEntries net fs0 manifest).2.getD i [] = _ ∨
    _ ∈ (runEntries net fs0 manifest).2.getD i []
  rw [runEntries_getD net manifest fs0 i h]
  exact processEntry_events net _ _

/-- Witness for C3: the inner per-entry disjunct at entry 0 on the empty
filesystem with an all-successful network. -/
theorem run_completes_and_exits_zero_witness :
    0 < manifest.length ∧
    ((main_run netAllOk fsEmpty).stepEvents.getD 0 [] =
        [Event.skipped ((manifest.getD 0 default).2)] ∨
      Event.netCall ((manifest.getD 0 default).1) ∈
        (main_run netAllOk fsEmpty).stepEvents.getD 0 []) :=
  ⟨by decide, (run_completes_and_exits_zero netAllOk fsEmpty).2.2.2 0 (by decide)⟩

/-- C4: on a non-success HTTP status `download_file` returns `False`, issues
exactly one network request (no retry), and the filesystem is completely
unchanged: `raise_for_status` fires before the destination is opened, so a
destination that did not exist is still absent. -/
theorem http_error_no_partial_write (net : String → FetchResponse) (fs : FS)
    (url output_path : String) (code : Nat)
    (h : net url = FetchResponse.httpError code) :
    (download_file net fs url output_path).1 = false ∧
    (download_file net fs url output_path).2.2 =
      [Event.netCall url, Event.errorPrinted] ∧
    (download_file net fs url output_path).2.1 = fs ∧
    (fs output_path = none →
      (download_file net fs url output_path).2.1 output_path = none) := by
  simp [download_file, h]

/-- Witness for C4: a 500 response on the empty filesystem. -/
theorem http_error_no_partial_write_witness :
    netHttp500 "u" = FetchResponse.httpError 500 ∧
    ((download_file netHttp500 fsEmpty "u" "d").1 = false ∧
     (download_file netHttp500 fsEmpty "u" "d").2.2 =
       [Event.netCall "u", Event.errorPrinted] ∧
     (download_file netHttp500 fsEmpty "u" "d").2.1 = fsEmpty ∧
     (fsEmpty "d" = none →
       (download_file netHttp500 fsEmpty "u" "d").2.1 "d" = none)) :=
  ⟨rfl, http_error_no_partial_write netHttp500 fsEmpty "u" "d" 500 rfl⟩

/-- C5 as stated is false of the code: `download_file` itself performs no
existence check.  With the first manifest destination already present
(holding the byte 0), calling `download_file` directly still emits the
network request and overwrites the file with the response body. -/
theorem download_file_ignores_existing_dest :
    (fsWithFirst "data/raw/cite_seq/GSE264696_730_HTO_GEXbarcodes.tsv.gz").isSome
      = true ∧
    Event.netCall "u" ∈
      (download_file netAllOk fsWithFirst "u"
        "data/raw/cite_seq/GSE264696_730_HTO_GEXbarcodes.tsv.gz").2.2 ∧
    (download_file netAllOk fsWithFirst "u"
        "data/raw/cite_seq/GSE264696_730_HTO_GEXbarcodes.tsv.gz").2.1
      "data/raw/cite_seq/GSE264696_730_HTO_GEXbarcodes.tsv.gz" =
      some [1, 2, 3] := by
  decide

/-- C5 amended: the skip-on-existing check is made by the caller, not by
`download_file`: the per-entry processing in `main` tests existence first
and, when the destination exists, performs no network call (it never invokes
`download_file`), prints the skip message, and leaves the filesystem
unchanged. -/
theorem fetch_guard_skips_existing (net : String → FetchResponse) (fs : FS)
    (e : String × String) (hex : (fs e.2).isSome = true) :
    processEntry net fs e = (fs, [Event.skipped e.2]) := by
  simp [processEntry, hex]

/-- Witness for the amended C5: the first manifest destination, already
present. -/
theorem fetch_guard_skips_existing_witness :
    (fsWithFirst "data/raw/cite_seq/GSE264696_730_HTO_GEXbarcodes.tsv.gz").isSome
      = true ∧
    processEntry netAllOk fsWithFirst
        ("u", "data/raw/cite_seq/GSE264696_730_HTO_GEXbarcodes.tsv.gz") =
      (fsWithFirst,
       [Event.skipped "data/raw/cite_seq/GSE264696_730_HTO_GEXbarcodes.tsv.gz"]) :=
  ⟨by decide,
   fetch_guard_skips_existing netAllOk fsWithFirst
     ("u", "data/raw/cite_seq/GSE264696_730_HTO_GEXbarcodes.tsv.gz") (by decide)⟩

/-- C6: whenever `download_file` returns `True`, the destination file holds
exactly the concatenation of all streamed chunks, whose byte length is the
sum of the chunk lengths. -/
theorem success_writes_all_chunks (net : String → FetchResponse) (fs : FS)
    (url output_path : String)
    (h : (download_file net fs url output_path).1 = true) :
    ∃ chunks, net url = FetchResponse.ok chunks ∧
      (download_file net fs url output_path).2.1 output_path =
        some chunks.flatten ∧
      chunks.flatten.length = (chunks.map List.length).sum := by
  cases hn : net url with
  | connError => simp [download_file, hn] at h
  | httpError code => simp [download_file, hn] at h
  | ok chunks =>
      refine ⟨chunks, rfl, ?_, List.length_flatten chunks⟩
      simp [download_file, hn]
  | okPartial sent => simp [download_file, hn] at h

/-- Witness for C6: a successful two-chunk transfer. -/
theorem success_writes_all_chunks_witness :
    (download_file netAllOk fsEmpty "u" "d").1 = true ∧
    ∃ chunks, netAllOk "u" = FetchResponse.ok chunks ∧
      (download_file netAllOk fsEmpty "u" "d").2.1 "d" = some chunks.flatten ∧
      chunks.flatten.length = (chunks.map List.length).sum :=
  ⟨by decide, success_writes_all_chunks netAllOk fsEmpty "u" "d" (by decide)⟩

/-- C7: the manifest builder is a pure function of the dataset constants and
performs no I/O in the embedding; evaluated on the script's identifiers it
yields exactly this ordered twelve-entry list of (URL, destination) pairs,
so every run produces the identical ordered list. -/
theorem manifest_deterministic_constant :
    manifest = buildManifest cite_files gsm_samples ∧
    buildManifest cite_files gsm_samples =
      [("https://ftp.ncbi.nlm.nih.gov/geo/series/GSE264nnn/GSE264696/suppl/GSE264696_730_HTO_GEXbarcodes.tsv.gz",
        "data/raw/cite_seq/GSE264696_730_HTO_GEXbarcodes.tsv.gz"),
       ("https://ftp.ncbi.nlm.nih.gov/geo/series/GSE264nnn/GSE264696/suppl/GSE264696_730_HTO_GEXfeatures.tsv.gz",
        "data/raw/cite_seq/GSE264696_730_HTO_GEXfeatures.tsv.gz"),
       ("https://ftp.ncbi.nlm.nih.gov/geo/series/GSE264nnn/GSE264696/suppl/GSE264696_730_HTO_GEXmatrix.mtx.gz",
        "data/raw/cite_seq/GSE264696_730_HTO_GEXmatrix.mtx.gz"),
       ("https://ftp.ncbi.nlm.nih.gov/geo/series/GSE264nnn/GSE264696/suppl/GSE264696_3228_HTO_GEXbarcodes.tsv.gz",
        "data/raw/cite_seq/GSE264696_3228_HTO_GEXbarcodes.tsv.gz"),
       ("https://ftp.ncbi.nlm.nih.gov/geo/series/GSE264nnn/GSE264696/suppl/GSE264696_3228_HTO_GEXfeatures.tsv.gz",
        "data/raw/cite_seq/GSE264696_3228_HTO_GEXfeatures.tsv.gz"),
       ("https://ftp.ncbi.nlm.nih.gov/geo/series/GSE264nnn/GSE264696/suppl/GSE264696_3228_HTO_GEXmatrix.mtx.gz",
        "data/raw/cite_seq/GSE264696_3228_HTO_GEXmatrix.mtx.gz"),
       ("https://ftp.ncbi.nlm.nih.gov/geo/samples/GSM8226nnn/GSM8226272/suppl/GSM8226272_730_ADTbarcodes.tsv.gz",
        "data/raw/cite_seq/GSM8226272_730_ADTbarcodes.tsv.gz"),
       ("https://ftp.ncbi.nlm.nih.gov/geo/samples/GSM8226nnn/GSM8226272/suppl/GSM8226272_730_ADTfeatures.tsv.gz",
        "data/raw/cite_seq/GSM8226272_730_ADTfeatures.tsv.gz"),
       ("https://ftp.ncbi.nlm.nih.gov/geo/samples/GSM8226nnn/GSM8226272/suppl/GSM8226272_730_ADTmatrix.mtx.gz",
        "data/raw/cite_seq/GSM8226272_730_ADTmatrix.mtx.gz"),
       ("https://ftp.ncbi.nlm.nih.gov/geo/samples/GSM8226nnn/GSM8226274/suppl/GSM8226274_3228_ADTbarcodes.tsv.gz",
        "data/raw/cite_seq/GSM8226274_3228_ADTbarcodes.tsv.gz"),
       ("https://ftp.ncbi.nlm.nih.gov/geo/samples/GSM8226nnn/GSM8226274/suppl/GSM8226274_3228_ADTfeatures.tsv.gz",
        "data/raw/cite_seq/GSM8226274_3228_ADTfeatures.tsv.gz"),
       ("https://ftp.ncbi.nlm.nih.gov/geo/samples/GSM8226nnn/GSM8226274/suppl/GSM8226274_3228_ADTmatrix.mtx.gz",
        "data/raw/cite_seq/GSM8226274_3228_ADTmatrix.mtx.gz")] :=
  ⟨rfl, by decide⟩

/-- C8: every manifest destination lies directly inside the fixed directory
`data/raw/cite_seq/` (relative to the program's own project root), and its
filename is the final path component of the entry's URL verbatim. -/
theorem dest_in_cite_dir_named_after_url :
    ∀ e ∈ manifest, e.2 = cite_dir ++ lastUrlComponent e.1 := by decide

/-- Witness for C8: the first manifest entry. -/
theorem dest_in_cite_dir_named_after_url_witness :
    (geo_base ++ "GSE264696_730_HTO_GEXbarcodes.tsv.gz",
     cite_dir ++ "GSE264696_730_HTO_GEXbarcodes.tsv.gz") ∈ manifest ∧
    (geo_base ++ "GSE264696_730_HTO_GEXbarcodes.tsv.gz",
     cite_dir ++ "GSE264696_730_HTO_GEXbarcodes.tsv.gz").2 =
      cite_dir ++ lastUrlComponent
        (geo_base ++ "GSE264696_730_HTO_GEXbarcodes.tsv.gz",
         cite_dir ++ "GSE264696_730_HTO_GEXbarcodes.tsv.gz").1 :=
  ⟨by decide, dest_in_cite_dir_named_after_url _ (by decide)⟩

/-- C9: if a manifest entry's destination exists (with any contents `v`)
when the run reaches that entry, the run's final filesystem still holds
exactly `v` at that path: existence is the only check, and the file is never
re-fetched, truncated, or modified afterwards. -/
theorem existing_file_never_modified (net : String → FetchResponse) (fs0 : FS)
    (i : Nat) (v : List Nat) (h : i < manifest.length)
    (hex : fsAfter net fs0 i ((manifest.getD i default).2) = some v) :
    (main_run net fs0).finalFS ((manifest.getD i default).2) = some v := by
  have hgd : manifest.getD i default = manifest.get ⟨i, h⟩ := by
    rw [List.getD_eq_getElem manifest default h]
    rfl
  have hdrop : manifest.drop i = manifest.getD i default :: manifest.drop (i + 1) := by
    rw [List.drop_eq_getElem_cons h, hgd]
    rfl
  have hsplit : (runEntries net fs0 manifest).1 =
      (runEntries net (fsAfter net fs0 i) (manifest.drop i)).1 := by
    conv_lhs => rw [← List.take_append_drop i manifest]
    exact runEntries_append net (manifest.take i) (manifest.drop i) fs0
  show (runEntries net fs0 manifest).1 ((manifest.getD i default).2) = some v
  rw [hsplit, hdrop]
  show (runEntries net
      (processEntry net (fsAfter net fs0 i) (manifest.getD i default)).1
      (manifest.drop (i + 1))).1 ((manifest.getD i default).2) = some v
  have hskip : processEntry net (fsAfter net fs0 i) (manifest.getD i default) =
      (fsAfter net fs0 i, [Event.skipped ((manifest.getD i default).2)]) :=
    processEntry_of_isSome net _ _ (by rw [hex]; rfl)
  rw [hskip]
  have hdist : ∀ e ∈ manifest.drop (i + 1),
      ((manifest.getD i default).2) ≠ e.2 := by
    have hall : ∀ j : Fin manifest.length, ∀ e ∈ manifest.drop (j.1 + 1),
        ((manifest.getD j.1 default).2) ≠ e.2 := by decide
    exact hall ⟨i, h⟩
  rw [runEntries_frame net (manifest.drop (i + 1)) (fsAfter net fs0 i)
    ((manifest.getD i default).2) hdist]
  exact hex

/-- Witness for C9: entry 0 pre-exists holding the byte 0, the run with an
all-successful network leaves it holding exactly that byte. -/
theorem existing_file_never_modified_witness :
    0 < manifest.length ∧
    fsAfter netAllOk fsWithFirst 0 ((manifest.getD 0 default).2) = some [0] ∧
    (main_run netAllOk fsWithFirst).finalFS ((manifest.getD 0 default).2) =
      some [0] :=
  ⟨by decide, by decide,
   existing_file_never_modified netAllOk fsWithFirst 0 [0] (by decide) (by decide)⟩

/-- C10: one run produces exactly twelve manifest entries whose destination
paths are pairwise distinct, and processing an entry writes to no path other
than its own destination, so no fetch ever writes to the destination of a
different manifest entry. -/
theorem dest_paths_pairwise_distinct :
    manifest.length = 12 ∧ (manifest.map Prod.snd).Nodup ∧
    ∀ (net : String → FetchResponse) (fs : FS) (e : String × String)
      (p : String), p ≠ e.2 → (processEntry net fs e).1 p = fs p :=
  ⟨by decide, by decide, fun net fs e p hp => processEntry_frame net fs e p hp⟩

/-- Witness for C10: a path different from an entry's destination is left
untouched by processing that entry. -/
theorem dest_paths_pairwise_distinct_witness :
    (("x" : String) ≠ (("u", "d") : String × String).2) ∧
    (processEntry netAllOk fsEmpty ("u", "d")).1 "x" = fsEmpty "x" :=
  ⟨by decide,
   dest_paths_pairwise_distinct.2.2 netAllOk fsEmpty ("u", "d") "x" (by decide)⟩
